import Mathlib

/-!
Verification of the `AudioPlayer` component
(`src/home/components/AudioPlayer.tsx`).

The component keeps two pieces of React state, `playback : PlaybackState`
and `error : ErrorState`, projects external playback-status updates into
them (`handlePlaybackStatusUpdate`), and dispatches fire-and-forget
commands against the externally owned sound handle from the six button
`onPress` closures.  We embed that logic shallowly: the sound handle is
an opaque identifier, each `onPress` closure becomes a pure function from
component state to (component state, optionally dispatched sound
command), and the `useEffect` acquire/release lifecycle becomes a small
step function over mount / prop-update / unmount events.
-/

namespace AudioPlayer

/- Sound handles (`Audio.Sound` objects, externally owned) are modelled
as opaque identifiers, plain naturals. -/

/-- A JavaScript `Error` value, as far as this component looks at it:
only its `message` text is ever read (by the error overlay). -/
structure JsError where
  message : String
deriving Repr, DecidableEq

/-- `type ErrorState = Error | null` (line 15). -/
abbrev ErrorState := Option JsError

/-- `type PlaybackState` (lines 17–29): discriminated on `isLoaded`. -/
inductive PlaybackState where
  | unloaded : PlaybackState
  | loaded (sound : Nat) (positionMillis durationMillis : ℚ)
      (isPlaying isLooping isMuted : Bool) (rate : ℚ)
      (shouldCorrectPitch : Bool) : PlaybackState
deriving Repr, DecidableEq

/-- `playback.isLoaded` discriminant test. -/
def PlaybackState.isLoaded : PlaybackState → Bool
  | .unloaded => false
  | .loaded _ _ _ _ _ _ _ _ => true

/-- `const initialPlaybackState: PlaybackState = { isLoaded: false }` (line 32). -/
def initialPlaybackState : PlaybackState := .unloaded

/-- `const initialErrorState: ErrorState = null` (line 31). -/
def initialErrorState : ErrorState := none

/-- The two `useState` cells of the component (lines 35–36). -/
structure ComponentState where
  playback : PlaybackState
  error : ErrorState
deriving Repr, DecidableEq

/-- A playback status record as delivered by the media runtime to the
`setOnPlaybackStatusUpdate` callback: either not loaded (carrying an
optional error) or loaded with the tracked fields. -/
inductive PlaybackStatus where
  | notLoaded (error : ErrorState) : PlaybackStatus
  | loaded (positionMillis durationMillis : ℚ)
      (isPlaying isLooping isMuted : Bool) (rate : ℚ)
      (shouldCorrectPitch : Bool) : PlaybackStatus
deriving Repr, DecidableEq

/-- `handlePlaybackStatusUpdate` (lines 38–56): on a not-loaded status,
`setPlayback({isLoaded:false}); setError(status.error)`; on a loaded
status, `setPlayback({...full snapshot...}); setError(null)`.  The two
`useState` setters replace the respective state cells wholesale. -/
def handlePlaybackStatusUpdate (sound : Nat) (status : PlaybackStatus)
    (_s : ComponentState) : ComponentState :=
  match status with
  | .notLoaded e =>
      { playback := .unloaded, error := e }
  | .loaded positionMillis durationMillis isPlaying isLooping isMuted rate
      shouldCorrectPitch =>
      { playback := .loaded sound positionMillis durationMillis isPlaying
          isLooping isMuted rate shouldCorrectPitch,
        error := none }

/-- `Audio.PitchCorrectionQuality` tiers of `expo-av`. -/
inductive PitchCorrectionQuality where
  | Low | Medium | High
deriving Repr, DecidableEq

/-- A fire-and-forget request issued against a sound handle by one of
the `onPress` closures. -/
inductive SoundCommand where
  | pauseAsync (sound : Nat) : SoundCommand
  | playFromPositionAsync (sound : Nat) (positionMillis : ℚ) : SoundCommand
  | playAsync (sound : Nat) : SoundCommand
  | setIsLoopingAsync (sound : Nat) (isLooping : Bool) : SoundCommand
  | setRateAsync (sound : Nat) (rate : ℚ) (shouldCorrectPitch : Bool)
      (quality : PitchCorrectionQuality) : SoundCommand
  | setIsMutedAsync (sound : Nat) (isMuted : Bool) : SoundCommand
deriving Repr, DecidableEq

/-- `AudioPlayButton` `onPress` (lines 81–91): guarded on
`playback.isLoaded`; pause if playing, else restart from position 0 if
`positionMillis < durationMillis`, else plain play.  The closure calls
no state setter, so the component state passes through unchanged. -/
def playPauseOnPress (s : ComponentState) : ComponentState × Option SoundCommand :=
  match s.playback with
  | .loaded sound positionMillis durationMillis isPlaying _ _ _ _ =>
      if isPlaying then
        (s, some (.pauseAsync sound))
      else if positionMillis < durationMillis then
        (s, some (.playFromPositionAsync sound 0))
      else
        (s, some (.playAsync sound))
  | .unloaded => (s, none)

/-- "Repeat" button `onPress` (lines 110–114). -/
def repeatOnPress (s : ComponentState) : ComponentState × Option SoundCommand :=
  match s.playback with
  | .loaded sound _ _ _ isLooping _ _ _ =>
      (s, some (.setIsLoopingAsync sound (!isLooping)))
  | .unloaded => (s, none)

/-- "Slower" button `onPress` (lines 121–130):
`const newRate = playback.rate < 1 ? 1 : 0.5;` then
`setRateAsync(newRate, playback.shouldCorrectPitch, High)`. -/
def slowerOnPress (s : ComponentState) : ComponentState × Option SoundCommand :=
  match s.playback with
  | .loaded sound _ _ _ _ _ rate shouldCorrectPitch =>
      let newRate : ℚ := if rate < 1 then 1 else 1/2
      (s, some (.setRateAsync sound newRate shouldCorrectPitch .High))
  | .unloaded => (s, none)

/-- "Faster" button `onPress` (lines 137–146):
`const newRate = playback.rate > 1 ? 1 : 2;` then
`setRateAsync(newRate, playback.shouldCorrectPitch, High)`. -/
def fasterOnPress (s : ComponentState) : ComponentState × Option SoundCommand :=
  match s.playback with
  | .loaded sound _ _ _ _ _ rate shouldCorrectPitch =>
      let newRate : ℚ := if rate > 1 then 1 else 2
      (s, some (.setRateAsync sound newRate shouldCorrectPitch .High))
  | .unloaded => (s, none)

/-- "Correct Pitch" button `onPress` (lines 153–161):
`setRateAsync(playback.rate, !playback.shouldCorrectPitch, High)`. -/
def correctPitchOnPress (s : ComponentState) : ComponentState × Option SoundCommand :=
  match s.playback with
  | .loaded sound _ _ _ _ _ rate shouldCorrectPitch =>
      (s, some (.setRateAsync sound rate (!shouldCorrectPitch) .High))
  | .unloaded => (s, none)

/-- "Mute" button `onPress` (lines 168–172). -/
def muteOnPress (s : ComponentState) : ComponentState × Option SoundCommand :=
  match s.playback with
  | .loaded sound _ _ _ _ isMuted _ _ =>
      (s, some (.setIsMutedAsync sound (!isMuted)))
  | .unloaded => (s, none)

/-- `const isPlayable = props.isAudioEnabled && playback.isLoaded` (line 73). -/
def isPlayable (isAudioEnabled : Bool) (playback : PlaybackState) : Bool :=
  isAudioEnabled && playback.isLoaded

/-- `disabled={!isPlayable}` on the play/pause button (line 79). -/
def playButtonDisabled (isAudioEnabled : Bool) (playback : PlaybackState) : Bool :=
  !(isPlayable isAudioEnabled playback)

/-- `disabled={!isPlayable}` on the "Repeat" button (line 108). -/
def repeatButtonDisabled (isAudioEnabled : Bool) (playback : PlaybackState) : Bool :=
  !(isPlayable isAudioEnabled playback)

/-- `disabled={!isPlayable}` on the "Slower" button (line 119). -/
def slowerButtonDisabled (isAudioEnabled : Bool) (playback : PlaybackState) : Bool :=
  !(isPlayable isAudioEnabled playback)

/-- `disabled={!isPlayable}` on the "Faster" button (line 135). -/
def fasterButtonDisabled (isAudioEnabled : Bool) (playback : PlaybackState) : Bool :=
  !(isPlayable isAudioEnabled playback)

/-- `disabled={!isPlayable}` on the "Correct Pitch" button (line 151). -/
def correctPitchButtonDisabled (isAudioEnabled : Bool) (playback : PlaybackState) : Bool :=
  !(isPlayable isAudioEnabled playback)

/-- `disabled={!isPlayable}` on the "Mute" button (line 166). -/
def muteButtonDisabled (isAudioEnabled : Bool) (playback : PlaybackState) : Bool :=
  !(isPlayable isAudioEnabled playback)

/-- The error overlay (line 175): rendered with `error.message` exactly
when `error` is non-null. -/
def renderedErrorOverlay (s : ComponentState) : Option String :=
  match s.error with
  | some e => some e.message
  | none => none

/-! ### The time formatter (`_formatTime`, lines 246–250) -/

/-- Decimal digit character, as produced by JavaScript number-to-string
for a digit value `d < 10`. -/
def digitChar (d : Nat) : Char := Char.ofNat (48 + d)

/-- Accumulating decimal digits of a natural number, most significant
first (the standard base-10 conversion performed by JavaScript
number-to-string on a nonnegative integer).  The first argument is
structural fuel; any fuel of at least `n` computes all digits of `n`. -/
def natDigitsAux : Nat → Nat → List Char → List Char
  | 0, _, acc => acc
  | fuel + 1, n, acc =>
      if n = 0 then acc
      else natDigitsAux fuel (n / 10) (digitChar (n % 10) :: acc)

/-- JavaScript number-to-string on a nonnegative integer value. -/
def natToDecimal (n : Nat) : String :=
  if n = 0 then "0" else ⟨natDigitsAux n n []⟩

/-- JavaScript number-to-string on an integer value. -/
def intToDecimal : Int → String
  | .ofNat n => natToDecimal n
  | .negSucc n => "-" ++ natToDecimal (n + 1)

/-- `String.prototype.padStart(targetLength, pad)` with a single pad
character: left-pad with copies of `pad` up to `targetLength`. -/
def padStart (s : String) (targetLength : Nat) (pad : Char) : String :=
  String.mk (List.replicate (targetLength - s.length) pad) ++ s

/-- JavaScript truncation toward zero (the integer part used by the `%`
operator). -/
def ratTrunc (q : ℚ) : ℤ :=
  if q < 0 then -(⌊-q⌋) else ⌊q⌋

/-- JavaScript remainder `x % y`: `x - y * trunc(x / y)`. -/
def jsMod (x y : ℚ) : ℚ := x - y * (ratTrunc (x / y) : ℚ)

/-- `_formatTime` (lines 246–250): seconds `Math.floor(duration % 60)`
and minutes `Math.floor(duration / 60)`, each rendered in decimal and
left-padded to two characters with '0', joined by ':'. -/
def formatTime (duration : ℚ) : String :=
  let paddedSeconds := padStart (intToDecimal ⌊jsMod duration 60⌋) 2 '0'
  let paddedMinutes := padStart (intToDecimal ⌊duration / 60⌋) 2 '0'
  paddedMinutes ++ ":" ++ paddedSeconds

/-- The time text (lines 97–101): when loaded,
`formatTime(positionMillis / 1000) ++ " / " ++ formatTime(durationMillis / 1000)`;
when unloaded, the literal `"00:00 / 00:00"`. -/
def renderedTimeText (playback : PlaybackState) : String :=
  match playback with
  | .loaded _ positionMillis durationMillis _ _ _ _ _ =>
      formatTime (positionMillis / 1000) ++ " / " ++ formatTime (durationMillis / 1000)
  | .unloaded => "00:00 / 00:00"

/-! ### The `useEffect` acquire/release lifecycle (lines 58–71)

The effect runs on mount and whenever `props.source.uri` changes; its
cleanup runs before each re-run and on unmount (React's effect
contract).  The effect body constructs a fresh `Audio.Sound`, subscribes
to its status updates and starts the load; the cleanup resets the
playback state, clears the subscription and unloads the sound.  We model
the externally visible actions of one component instance as a trace. -/

/-- One externally visible action of the effect body or its cleanup. -/
inductive LifecycleAction where
  | newSound (sound : Nat) : LifecycleAction
  | subscribe (sound : Nat) : LifecycleAction
  | loadAsync (sound : Nat) (uri : String)
      (progressUpdateIntervalMillis : ℚ) : LifecycleAction
  | resetPlayback : LifecycleAction
  | unsubscribe (sound : Nat) : LifecycleAction
  | unloadAsync (sound : Nat) : LifecycleAction
deriving Repr, DecidableEq

/-- Bookkeeping for the effect: the next fresh sound identifier, and the
currently held sound (with the `uri` its effect run closed over), if the
effect is active. -/
structure EffectState where
  nextId : Nat
  current : Option (Nat × String)
deriving Repr, DecidableEq

/-- State of an unmounted, never-run component instance. -/
def initialEffectState : EffectState := { nextId := 0, current := none }

/-- The effect body (lines 59–64): `new Audio.Sound()`,
`setOnPlaybackStatusUpdate(...)`,
`loadAsync(props.source, { progressUpdateIntervalMillis: 150 })`. -/
def runEffect (uri : String) (s : EffectState) : EffectState × List LifecycleAction :=
  ({ nextId := s.nextId + 1, current := some (s.nextId, uri) },
   [.newSound s.nextId, .subscribe s.nextId, .loadAsync s.nextId uri 150])

/-- The effect cleanup (lines 66–70): `setPlayback({isLoaded:false})`,
`setOnPlaybackStatusUpdate(null)`, `unloadAsync()` on the sound the
effect run closed over. -/
def runCleanup (s : EffectState) : EffectState × List LifecycleAction :=
  match s.current with
  | some (sound, _) =>
      ({ s with current := none },
       [.resetPlayback, .unsubscribe sound, .unloadAsync sound])
  | none => (s, [])

/-- A lifecycle event delivered by React to the component instance. -/
inductive LifecycleEvent where
  | mount (uri : String) : LifecycleEvent
  | setProps (uri : String) : LifecycleEvent
  | unmount : LifecycleEvent
deriving Repr, DecidableEq

/-- React's effect semantics for an effect keyed on `[props.source.uri]`
(line 71): run the effect on mount; on a prop update, re-run it (cleanup
first) exactly when the uri changed; on unmount, run the cleanup. -/
def stepLifecycle (s : EffectState) : LifecycleEvent → EffectState × List LifecycleAction
  | .mount uri => runEffect uri s
  | .setProps uri =>
      match s.current with
      | some (_, u) =>
          if u = uri then (s, [])
          else
            let (s1, a1) := runCleanup s
            let (s2, a2) := runEffect uri s1
            (s2, a1 ++ a2)
      | none => (s, [])
  | .unmount => runCleanup s

/-- The action trace of a component instance across a list of lifecycle
events. -/
def runLifecycle (s : EffectState) : List LifecycleEvent → EffectState × List LifecycleAction
  | [] => (s, [])
  | e :: es =>
      let (s1, a1) := stepLifecycle s e
      let (s2, a2) := runLifecycle s1 es
      (s2, a1 ++ a2)

/-- A well-formed instance history: mounted once, then any sequence of
prop updates, then unmounted. -/
def instanceTrace (uri0 : String) (updates : List String) : List LifecycleEvent :=
  LifecycleEvent.mount uri0 :: updates.map LifecycleEvent.setProps ++ [LifecycleEvent.unmount]

/-- Number of `unloadAsync` actions for a given sound in a trace. -/
def unloadCount (sound : Nat) (as : List LifecycleAction) : Nat :=
  as.count (.unloadAsync sound)

/-- Number of `newSound` acquisitions of a given sound identifier in a
trace. -/
def acquireCount (sound : Nat) (as : List LifecycleAction) : Nat :=
  as.count (.newSound sound)

/-- The pitch-correction quality tier carried by a dispatched command,
when the command is a `setRateAsync` request. -/
def dispatchedQuality : Option SoundCommand → Option PitchCorrectionQuality
  | some (.setRateAsync _ _ _ q) => some q
  | _ => none

end AudioPlayer

namespace AudioPlayer

/-! ### Theorems -/

/-- Claim C1, counterexample: Starting from a Loaded view-state with rate
1, pressing Slower dispatches rate 1/2; after a status update reflecting
rate 1/2, pressing Faster dispatches rate 2 — not rate 1 as the claim
states. -/
theorem slower_then_faster_cex :
    (slowerOnPress ⟨.loaded 0 0 60000 false false false 1 false, none⟩).2
      = some (.setRateAsync 0 (1/2) false .High) ∧
    (fasterOnPress (handlePlaybackStatusUpdate 0
        (.loaded 0 60000 false false false (1/2) false)
        ⟨.loaded 0 0 60000 false false false 1 false, none⟩)).2
      = some (.setRateAsync 0 2 false .High) ∧
    (fasterOnPress (handlePlaybackStatusUpdate 0
        (.loaded 0 60000 false false false (1/2) false)
        ⟨.loaded 0 0 60000 false false false 1 false, none⟩)).2
      ≠ some (.setRateAsync 0 1 false .High) := by
  refine ⟨?_, ?_, ?_⟩ <;>
    norm_num [slowerOnPress, fasterOnPress, handlePlaybackStatusUpdate]

/-- Claim C1, amended: Starting from a Loaded view-state with rate 1,
pressing Slower dispatches rate 1/2, and after any status update
reflecting the dispatched rate 1/2, pressing Faster dispatches rate 2
(not 1). -/
theorem slower_then_faster_dispatches_two (sound : Nat) (p d : ℚ)
    (ip il im sc : Bool) (err : ErrorState) (p' d' : ℚ) (ip' il' im' sc' : Bool) :
    (slowerOnPress ⟨.loaded sound p d ip il im 1 sc, err⟩).2
      = some (.setRateAsync sound (1/2) sc .High) ∧
    (fasterOnPress (handlePlaybackStatusUpdate sound
        (.loaded p' d' ip' il' im' (1/2) sc')
        ⟨.loaded sound p d ip il im 1 sc, err⟩)).2
      = some (.setRateAsync sound 2 sc' .High) := by
  refine ⟨?_, ?_⟩ <;>
    norm_num [slowerOnPress, fasterOnPress, handlePlaybackStatusUpdate]

/-- Claim C2: For every Loaded view-state: Slower dispatches `setRate`
with rate 1 when the current rate is below 1 and with rate 1/2
otherwise; Faster dispatches rate 1 when the current rate is above 1 and
rate 2 otherwise. -/
theorem slower_faster_rate_dispatch (sound : Nat) (p d : ℚ)
    (ip il im : Bool) (r : ℚ) (sc : Bool) (err : ErrorState) :
    (r < 1 → (slowerOnPress ⟨.loaded sound p d ip il im r sc, err⟩).2
      = some (.setRateAsync sound 1 sc .High)) ∧
    (1 ≤ r → (slowerOnPress ⟨.loaded sound p d ip il im r sc, err⟩).2
      = some (.setRateAsync sound (1/2) sc .High)) ∧
    (1 < r → (fasterOnPress ⟨.loaded sound p d ip il im r sc, err⟩).2
      = some (.setRateAsync sound 1 sc .High)) ∧
    (r ≤ 1 → (fasterOnPress ⟨.loaded sound p d ip il im r sc, err⟩).2
      = some (.setRateAsync sound 2 sc .High)) := by
  refine ⟨fun h => ?_, fun h => ?_, fun h => ?_, fun h => ?_⟩
  · simp [slowerOnPress, h]
  · simp [slowerOnPress, not_lt.mpr h]
  · simp [fasterOnPress, h]
  · simp [fasterOnPress, not_lt.mpr h]

/-- Witness for C2 at rate 1/2: Slower resets the rate to 1. -/
theorem slower_faster_rate_dispatch_witness :
    (slowerOnPress ⟨.loaded 0 0 60000 false false false (1/2) false, none⟩).2
      = some (.setRateAsync 0 1 false .High) :=
  (slower_faster_rate_dispatch 0 0 60000 false false false (1/2) false none).1
    (by norm_num)

/-- Claim C3: For every Loaded view-state, play/pause dispatches pause
when playing; otherwise it dispatches play-from-position 0 when
`positionMillis < durationMillis` (restart from the beginning), and
plain play when `positionMillis ≥ durationMillis`. -/
theorem playPause_dispatch (sound : Nat) (p d : ℚ)
    (il im : Bool) (r : ℚ) (sc : Bool) (err : ErrorState) :
    ((playPauseOnPress ⟨.loaded sound p d true il im r sc, err⟩).2
      = some (.pauseAsync sound)) ∧
    (p < d → (playPauseOnPress ⟨.loaded sound p d false il im r sc, err⟩).2
      = some (.playFromPositionAsync sound 0)) ∧
    (d ≤ p → (playPauseOnPress ⟨.loaded sound p d false il im r sc, err⟩).2
      = some (.playAsync sound)) := by
  refine ⟨rfl, fun h => ?_, fun h => ?_⟩
  · simp [playPauseOnPress, h]
  · simp [playPauseOnPress, not_lt.mpr h]

/-- Witness for C3 at the spec's example
`Loaded{isPlaying:false, positionMillis:500, durationMillis:1000}`:
pressing play restarts from position 0, not from 500. -/
theorem playPause_dispatch_witness :
    (playPauseOnPress ⟨.loaded 0 500 1000 false false false 1 false, none⟩).2
      = some (.playFromPositionAsync 0 0) :=
  (playPause_dispatch 0 500 1000 false false 1 false none).2.1 (by norm_num)

/-- Claim C4: Every failing status update sends the view-state to
Unloaded regardless of the prior state (discarding any prior Loaded
snapshot), records the reported error, and the overlay surfaces its
message text verbatim. -/
theorem failure_update_unloads_and_records (sound : Nat) (e : ErrorState)
    (s : ComponentState) :
    handlePlaybackStatusUpdate sound (.notLoaded e) s = ⟨.unloaded, e⟩ ∧
    ∀ msg : String,
      renderedErrorOverlay
        (handlePlaybackStatusUpdate sound (.notLoaded (some ⟨msg⟩)) s)
        = some msg := by
  exact ⟨rfl, fun _ => rfl⟩

/-- Claim C5: Every successful status update sends the view-state to
Loaded with the full snapshot of the nine tracked fields (the handle and
the eight status fields), replacing the prior state wholesale, and
clears any recorded error. -/
theorem success_update_snapshots (sound : Nat) (p d : ℚ)
    (ip il im : Bool) (r : ℚ) (sc : Bool) (s : ComponentState) :
    handlePlaybackStatusUpdate sound (.loaded p d ip il im r sc) s
      = ⟨.loaded sound p d ip il im r sc, none⟩ :=
  rfl

/-- Claim C6: Each of the six controls is enabled (not disabled) exactly
when `isAudioEnabled` is true and the view-state is Loaded; in
particular, on an Unloaded view-state all six are disabled for every
value of `isAudioEnabled`. -/
theorem controls_disabled_unless_playable (e : Bool) (p : PlaybackState) :
    ((playButtonDisabled e p = false ↔ e = true ∧ p.isLoaded = true) ∧
     (repeatButtonDisabled e p = false ↔ e = true ∧ p.isLoaded = true) ∧
     (slowerButtonDisabled e p = false ↔ e = true ∧ p.isLoaded = true) ∧
     (fasterButtonDisabled e p = false ↔ e = true ∧ p.isLoaded = true) ∧
     (correctPitchButtonDisabled e p = false ↔ e = true ∧ p.isLoaded = true) ∧
     (muteButtonDisabled e p = false ↔ e = true ∧ p.isLoaded = true)) ∧
    (p = .unloaded →
      playButtonDisabled e p = true ∧ repeatButtonDisabled e p = true ∧
      slowerButtonDisabled e p = true ∧ fasterButtonDisabled e p = true ∧
      correctPitchButtonDisabled e p = true ∧ muteButtonDisabled e p = true) := by
  cases e <;> cases p <;>
    simp [playButtonDisabled, repeatButtonDisabled, slowerButtonDisabled,
      fasterButtonDisabled, correctPitchButtonDisabled, muteButtonDisabled,
      isPlayable, PlaybackState.isLoaded]

/-- Witness for C6: with audio enabled but the view-state Unloaded, all
six controls are disabled. -/
theorem controls_disabled_unless_playable_witness :
    playButtonDisabled true .unloaded = true ∧
    repeatButtonDisabled true .unloaded = true ∧
    slowerButtonDisabled true .unloaded = true ∧
    fasterButtonDisabled true .unloaded = true ∧
    correctPitchButtonDisabled true .unloaded = true ∧
    muteButtonDisabled true .unloaded = true :=
  (controls_disabled_unless_playable true .unloaded).2 rfl

/-- String append concatenates the underlying character lists. -/
theorem string_data_append (a b : String) : (a ++ b).data = a.data ++ b.data := rfl

/-- The time pattern of the spec: at least two decimal digits, a colon,
then a digit no greater than '5' followed by one more digit. -/
def MatchesTimePattern (s : String) : Prop :=
  ∃ m c1 c2, s.data = m ++ ':' :: [c1, c2] ∧ 2 ≤ m.length ∧
    (∀ c ∈ m, c.isDigit = true) ∧
    c1.isDigit = true ∧ c1 ≤ '5' ∧ c2.isDigit = true

/-- Digit values render as decimal digit characters. -/
theorem digitChar_isDigit : ∀ d : Nat, d < 10 → (digitChar d).isDigit = true := by
  decide

/-- `natDigitsAux` only ever adds decimal digit characters. -/
theorem natDigitsAux_digits (fuel : Nat) :
    ∀ n acc, (∀ c ∈ acc, c.isDigit = true) →
      ∀ c ∈ natDigitsAux fuel n acc, c.isDigit = true := by
  induction fuel with
  | zero => exact fun n acc hacc c hc => hacc c hc
  | succ fuel ih =>
      intro n acc hacc c hc
      have heq : natDigitsAux (fuel + 1) n acc
          = if n = 0 then acc
            else natDigitsAux fuel (n / 10) (digitChar (n % 10) :: acc) := rfl
      rw [heq] at hc
      by_cases h : n = 0
      · rw [if_pos h] at hc; exact hacc c hc
      · rw [if_neg h] at hc
        refine ih (n / 10) _ (fun c' hc' => ?_) c hc
        rcases List.mem_cons.mp hc' with h' | h'
        · subst h'; exact digitChar_isDigit _ (Nat.mod_lt _ (by norm_num))
        · exact hacc c' h'

/-- Every character of a rendered natural number is a decimal digit. -/
theorem natToDecimal_digits (n : Nat) :
    ∀ c ∈ (natToDecimal n).data, c.isDigit = true := by
  intro c hc
  unfold natToDecimal at hc
  by_cases h : n = 0
  · rw [if_pos h] at hc
    have h0 : ("0" : String).data = ['0'] := rfl
    rw [h0] at hc
    rcases List.mem_singleton.mp hc with rfl
    decide
  · rw [if_neg h] at hc
    exact natDigitsAux_digits n n [] (fun c hc => absurd hc (List.not_mem_nil c)) c hc

/-- `padStart` prepends copies of the pad character to the character
list. -/
theorem padStart_data (s : String) (k : Nat) (pad : Char) :
    (padStart s k pad).data = List.replicate (k - s.length) pad ++ s.data := rfl

/-- The minutes field: padding a rendered natural number to two
characters with '0' yields at least two characters, all decimal
digits. -/
theorem padStart_natToDecimal_digits (n : Nat) :
    2 ≤ ((padStart (natToDecimal n) 2 '0').data).length ∧
    ∀ c ∈ (padStart (natToDecimal n) 2 '0').data, c.isDigit = true := by
  constructor
  · rw [padStart_data, List.length_append, List.length_replicate]
    have hl : (natToDecimal n).length = (natToDecimal n).data.length := rfl
    omega
  · intro c hc
    rw [padStart_data] at hc
    rcases List.mem_append.mp hc with h | h
    · rcases List.eq_of_mem_replicate h with rfl; decide
    · exact natToDecimal_digits n c h

/-- The seconds field: for a value below 60, padding its rendering to
two characters yields exactly two characters, a digit at most '5'
followed by a digit. -/
theorem seconds_chars (n : Nat) (h : n < 60) :
    ∃ c1 c2, (padStart (natToDecimal n) 2 '0').data = [c1, c2] ∧
      c1.isDigit = true ∧ c1 ≤ '5' ∧ c2.isDigit = true := by
  interval_cases n <;> exact ⟨_, _, rfl, by decide, by decide, by decide⟩

/-- Rendering a nonnegative integer is rendering its natural value. -/
theorem intToDecimal_nonneg (i : ℤ) (h : 0 ≤ i) :
    intToDecimal i = natToDecimal i.toNat := by
  match i with
  | .ofNat n => rfl
  | .negSucc n => exact absurd h (by simp)

/-- For a nonnegative duration, the JavaScript remainder by 60 lies in
[0, 60). -/
theorem jsMod_sixty_bounds (d : ℚ) (hd : 0 ≤ d) :
    0 ≤ jsMod d 60 ∧ jsMod d 60 < 60 := by
  have h60 : (0:ℚ) < 60 := by norm_num
  have hdiv : ¬ d / 60 < 0 := not_lt.mpr (div_nonneg hd (by norm_num))
  unfold jsMod ratTrunc
  rw [if_neg hdiv]
  have h1 := Int.sub_floor_div_mul_nonneg d h60
  have h2 := Int.sub_floor_div_mul_lt d h60
  constructor <;> linarith

/-- Computing `formatTime` once the two floors are known as naturals. -/
theorem formatTime_eq (d : ℚ) (m s : ℕ) (hm : ⌊d / 60⌋ = (m : ℤ))
    (hs : ⌊jsMod d 60⌋ = (s : ℤ)) :
    formatTime d
      = padStart (natToDecimal m) 2 '0' ++ ":" ++ padStart (natToDecimal s) 2 '0' := by
  unfold formatTime
  rw [hm, hs]
  rfl

/-- The character list of a formatted time splits at the colon. -/
theorem formatTime_data (d : ℚ) :
    (formatTime d).data
      = (padStart (intToDecimal ⌊d / 60⌋) 2 '0').data ++ ':' ::
        (padStart (intToDecimal ⌊jsMod d 60⌋) 2 '0').data := by
  unfold formatTime
  rw [string_data_append, string_data_append, List.append_assoc]
  rfl

/-- Claim C7: For every duration d ≥ 0 (seconds), `formatTime d` matches
`[0-9][0-9]+:[0-5][0-9]` (minutes zero-padded to at least two digits and
unbounded, seconds exactly two digits below 60); `formatTime 0 = "00:00"`,
`formatTime 65 = "01:05"`, `formatTime 3600 = "60:00"`; and the rendered
time text on an Unloaded view-state is the literal `"00:00 / 00:00"`. -/
theorem formatTime_spec :
    (∀ d : ℚ, 0 ≤ d → MatchesTimePattern (formatTime d)) ∧
    formatTime 0 = "00:00" ∧ formatTime 65 = "01:05" ∧
    formatTime 3600 = "60:00" ∧
    renderedTimeText .unloaded = "00:00 / 00:00" := by
  refine ⟨?_, ?_, ?_, ?_, rfl⟩
  · intro d hd
    obtain ⟨hm0, hm60⟩ := jsMod_sixty_bounds d hd
    have hMfloor : (0:ℤ) ≤ ⌊d / 60⌋ :=
      Int.floor_nonneg.mpr (div_nonneg hd (by norm_num))
    have hSfloor : (0:ℤ) ≤ ⌊jsMod d 60⌋ := Int.floor_nonneg.mpr hm0
    have hSlt : ⌊jsMod d 60⌋ < 60 := Int.floor_lt.mpr (by exact_mod_cast hm60)
    have hSn : (⌊jsMod d 60⌋).toNat < 60 := by omega
    obtain ⟨c1, c2, hsec, hc1d, hc15, hc2d⟩ := seconds_chars _ hSn
    obtain ⟨hlen, hdig⟩ := padStart_natToDecimal_digits (⌊d / 60⌋).toNat
    refine ⟨(padStart (intToDecimal ⌊d / 60⌋) 2 '0').data, c1, c2, ?_, ?_, ?_,
      hc1d, hc15, hc2d⟩
    · rw [formatTime_data, intToDecimal_nonneg _ hSfloor, hsec]
    · rw [intToDecimal_nonneg _ hMfloor]; exact hlen
    · rw [intToDecimal_nonneg _ hMfloor]; exact hdig
  · rw [formatTime_eq 0 0 0 (by norm_num) (by norm_num [jsMod, ratTrunc])]; decide
  · rw [formatTime_eq 65 1 5 (by norm_num) (by norm_num [jsMod, ratTrunc])]; decide
  · rw [formatTime_eq 3600 60 0 (by norm_num) (by norm_num [jsMod, ratTrunc])]; decide

/-- Witness for C7 at d = 65: the formatted string matches the
pattern. -/
theorem formatTime_spec_witness : MatchesTimePattern (formatTime 65) :=
  formatTime_spec.1 65 (by norm_num)

/-- Claim C8: For every Loaded view-state, the pitch-correction toggle
dispatches `setRate` with the current rate unchanged and
`shouldCorrectPitch` negated; and all three rate-affecting dispatches
(Slower, Faster, pitch toggle) carry the fixed High quality tier,
regardless of the value of `shouldCorrectPitch`. -/
theorem pitch_toggle_preserves_rate_and_quality (sound : Nat) (p d : ℚ)
    (ip il im : Bool) (r : ℚ) (sc : Bool) (err : ErrorState) :
    (correctPitchOnPress ⟨.loaded sound p d ip il im r sc, err⟩).2
      = some (.setRateAsync sound r (!sc) .High) ∧
    dispatchedQuality (slowerOnPress ⟨.loaded sound p d ip il im r sc, err⟩).2
      = some .High ∧
    dispatchedQuality (fasterOnPress ⟨.loaded sound p d ip il im r sc, err⟩).2
      = some .High ∧
    dispatchedQuality (correctPitchOnPress ⟨.loaded sound p d ip il im r sc, err⟩).2
      = some .High := by
  refine ⟨rfl, ?_, ?_, rfl⟩ <;>
    · rcases lt_or_le r 1 with h | h <;>
      rcases lt_or_le 1 r with h' | h' <;>
        simp [slowerOnPress, fasterOnPress, dispatchedQuality, h, h',
          not_lt.mpr, le_of_lt]

/-- Release bookkeeping for the tail of an instance history: from a
mounted effect state, the remaining prop updates and the final unmount
acquire the fresh identifiers between the current `nextId` and the final
one, and release (reset, unsubscribe, unload) the current sound and each
later-acquired sound exactly once. -/
theorem runLifecycle_mounted_counts (updates : List String) :
    ∀ (s : EffectState) (id : Nat) (uri : String) (sf : EffectState)
      (as : List LifecycleAction),
      s.current = some (id, uri) → s.nextId = id + 1 →
      runLifecycle s (updates.map LifecycleEvent.setProps
        ++ [LifecycleEvent.unmount]) = (sf, as) →
      sf.current = none ∧ s.nextId ≤ sf.nextId ∧
      ∀ sound : Nat,
        acquireCount sound as
          = (if s.nextId ≤ sound ∧ sound < sf.nextId then 1 else 0) ∧
        unloadCount sound as
          = (if sound = id ∨ (s.nextId ≤ sound ∧ sound < sf.nextId) then 1 else 0) ∧
        as.count (.unsubscribe sound)
          = (if sound = id ∨ (s.nextId ≤ sound ∧ sound < sf.nextId) then 1 else 0) ∧
        as.count .resetPlayback = (sf.nextId - s.nextId) + 1 := by
  induction updates with
  | nil =>
      intro s id uri sf as hcur hnext hrun
      obtain ⟨n, cur⟩ := s
      simp only at hcur hnext
      subst hcur hnext
      simp only [List.map_nil, List.nil_append, runLifecycle, stepLifecycle,
        runCleanup, List.append_nil, Prod.mk.injEq] at hrun
      obtain ⟨hsf, has⟩ := hrun
      subst hsf has
      refine ⟨rfl, le_refl _, fun sound => ?_⟩
      refine ⟨?_, ?_, ?_, ?_⟩ <;>
        simp only [acquireCount, unloadCount, List.count_cons, List.count_nil,
          beq_iff_eq, LifecycleAction.unloadAsync.injEq,
          LifecycleAction.unsubscribe.injEq] <;>
        simp <;> split_ifs <;> omega
  | cons u updates ih =>
      intro s id uri sf as hcur hnext hrun
      obtain ⟨n, cur⟩ := s
      simp only at hcur hnext
      subst hcur hnext
      rw [List.map_cons, List.cons_append] at hrun
      by_cases huri : uri = u
      · have hstep : stepLifecycle ⟨id + 1, some (id, uri)⟩ (.setProps u)
            = (⟨id + 1, some (id, uri)⟩, []) := by
          simp [stepLifecycle, huri]
        rcases hres : runLifecycle ⟨id + 1, some (id, uri)⟩
            (updates.map LifecycleEvent.setProps ++ [LifecycleEvent.unmount])
          with ⟨sf2, as2⟩
        simp only [runLifecycle, hstep, hres, List.nil_append,
          Prod.mk.injEq] at hrun
        obtain ⟨hsf, has⟩ := hrun
        subst hsf has
        exact ih ⟨id + 1, some (id, uri)⟩ id uri sf2 as2 rfl rfl hres
      · have hstep : stepLifecycle ⟨id + 1, some (id, uri)⟩ (.setProps u)
            = (⟨id + 1 + 1, some (id + 1, u)⟩,
               [.resetPlayback, .unsubscribe id, .unloadAsync id,
                .newSound (id + 1), .subscribe (id + 1),
                .loadAsync (id + 1) u 150]) := by
          simp [stepLifecycle, huri, runCleanup, runEffect]
        rcases hres : runLifecycle ⟨id + 1 + 1, some (id + 1, u)⟩
            (updates.map LifecycleEvent.setProps ++ [LifecycleEvent.unmount])
          with ⟨sf2, as2⟩
        simp only [runLifecycle, hstep, hres, Prod.mk.injEq] at hrun
        obtain ⟨hsf, has⟩ := hrun
        subst hsf has
        obtain ⟨hc2, hn2, hcounts⟩ :=
          ih ⟨id + 1 + 1, some (id + 1, u)⟩ (id + 1) u sf2 as2 rfl rfl hres
        have hn2' : id + 1 + 1 ≤ sf2.nextId := hn2
        refine ⟨hc2, le_trans (Nat.le_succ _) hn2', fun sound => ?_⟩
        obtain ⟨ha2, hu2, hs2, hr2⟩ := hcounts sound
        have ha2' : as2.count (.newSound sound)
            = (if id + 1 + 1 ≤ sound ∧ sound < sf2.nextId then 1 else 0) := ha2
        have hu2' : as2.count (.unloadAsync sound)
            = (if sound = id + 1 ∨ (id + 1 + 1 ≤ sound ∧ sound < sf2.nextId)
               then 1 else 0) := hu2
        have hs2' : as2.count (.unsubscribe sound)
            = (if sound = id + 1 ∨ (id + 1 + 1 ≤ sound ∧ sound < sf2.nextId)
               then 1 else 0) := hs2
        have hr2' : as2.count .resetPlayback = (sf2.nextId - (id + 1 + 1)) + 1 := hr2
        refine ⟨?_, ?_, ?_, ?_⟩ <;>
          simp only [acquireCount, unloadCount, List.cons_append,
            List.nil_append, List.count_cons, List.count_nil, beq_iff_eq,
            List.count_append, ha2', hu2', hs2', hr2'] <;>
          simp <;> first
            | (split_ifs <;> omega)
            | omega

/-- Claim C9: Across every well-formed instance history (mount, any
sequence of source updates, unmount), every acquired playback resource
is acquired at most once and released on its exit path exactly once:
the trace holds exactly one `unloadAsync` and one subscription
cancellation per acquisition — never zero and never two — and one
playback-state reset per acquired resource. -/
theorem release_exactly_once (uri0 : String) (updates : List String) (sound : Nat) :
    acquireCount sound
        (runLifecycle initialEffectState (instanceTrace uri0 updates)).2 ≤ 1 ∧
    unloadCount sound (runLifecycle initialEffectState (instanceTrace uri0 updates)).2
      = acquireCount sound
          (runLifecycle initialEffectState (instanceTrace uri0 updates)).2 ∧
    (runLifecycle initialEffectState (instanceTrace uri0 updates)).2.count
        (.unsubscribe sound)
      = acquireCount sound
          (runLifecycle initialEffectState (instanceTrace uri0 updates)).2 ∧
    (runLifecycle initialEffectState (instanceTrace uri0 updates)).2.count
        .resetPlayback
      = (runLifecycle initialEffectState (instanceTrace uri0 updates)).1.nextId := by
  have hstep : stepLifecycle initialEffectState (.mount uri0)
      = (⟨1, some (0, uri0)⟩,
         [.newSound 0, .subscribe 0, .loadAsync 0 uri0 150]) := rfl
  rcases hres : runLifecycle ⟨1, some (0, uri0)⟩
      (updates.map LifecycleEvent.setProps ++ [LifecycleEvent.unmount])
    with ⟨sf2, as2⟩
  have hrun : runLifecycle initialEffectState (instanceTrace uri0 updates)
      = (sf2, [.newSound 0, .subscribe 0, .loadAsync 0 uri0 150] ++ as2) := by
    simp [instanceTrace, runLifecycle, hstep, hres]
  obtain ⟨hc2, hn2, hcounts⟩ :=
    runLifecycle_mounted_counts updates ⟨1, some (0, uri0)⟩ 0 uri0 sf2 as2
      rfl rfl hres
  have hn2' : 1 ≤ sf2.nextId := hn2
  obtain ⟨ha2, hu2, hs2, hr2⟩ := hcounts sound
  have ha2' : as2.count (.newSound sound)
      = (if 1 ≤ sound ∧ sound < sf2.nextId then 1 else 0) := ha2
  have hu2' : as2.count (.unloadAsync sound)
      = (if sound = 0 ∨ (1 ≤ sound ∧ sound < sf2.nextId) then 1 else 0) := hu2
  have hs2' : as2.count (.unsubscribe sound)
      = (if sound = 0 ∨ (1 ≤ sound ∧ sound < sf2.nextId) then 1 else 0) := hs2
  have hr2' : as2.count .resetPlayback = (sf2.nextId - 1) + 1 := hr2
  rw [hrun]
  refine ⟨?_, ?_, ?_, ?_⟩ <;>
    simp only [acquireCount, unloadCount, List.count_append, List.count_cons,
      List.count_nil, beq_iff_eq, ha2', hu2', hs2', hr2'] <;>
    simp <;> first
      | (split_ifs <;> omega)
      | omega

/-- Claim C10: Invoking any of the six press handlers on an Unloaded
view-state (even with the disabled flag bypassed) dispatches no command
against any sound handle and leaves the component state unchanged. -/
theorem unloaded_handlers_noop (err : ErrorState) :
    playPauseOnPress ⟨.unloaded, err⟩ = (⟨.unloaded, err⟩, none) ∧
    repeatOnPress ⟨.unloaded, err⟩ = (⟨.unloaded, err⟩, none) ∧
    slowerOnPress ⟨.unloaded, err⟩ = (⟨.unloaded, err⟩, none) ∧
    fasterOnPress ⟨.unloaded, err⟩ = (⟨.unloaded, err⟩, none) ∧
    correctPitchOnPress ⟨.unloaded, err⟩ = (⟨.unloaded, err⟩, none) ∧
    muteOnPress ⟨.unloaded, err⟩ = (⟨.unloaded, err⟩, none) :=
  ⟨rfl, rfl, rfl, rfl, rfl, rfl⟩

end AudioPlayer
